import Mathlib

/-!
Verification of the libusb HID backend (src/hidapi/libusb/hid.c) against its
design specification.  The C functions are shallowly embedded as executable
Lean definitions; buffers are modelled as total byte functions `Nat → Nat`
together with an explicit length, linked lists of reports as `List`s, and the
concurrent wake-ups seen by a blocked reader as an explicit event trace.
-/

namespace HidLibusb

/-! ## Report-descriptor parser (`get_bytes`, `get_usage`) -/

/-- Embedding of `get_bytes(rpt, len, num_bytes, cur)` from hid.c:
reads a 0/1/2/4-byte little-endian value at `cur+1 ...`, returning 0 when
`cur + num_bytes >= len` (the out-of-bounds guard). -/
def get_bytes (rpt : Nat → Nat) (len num_bytes cur : Nat) : Nat :=
  if len ≤ cur + num_bytes then 0
  else if num_bytes = 0 then 0
  else if num_bytes = 1 then rpt (cur + 1)
  else if num_bytes = 2 then rpt (cur + 2) * 256 + rpt (cur + 1)
  else if num_bytes = 4 then
    rpt (cur + 4) * 0x01000000 + rpt (cur + 3) * 0x00010000 +
    rpt (cur + 2) * 0x00000100 + rpt (cur + 1) * 0x00000001
  else 0

/-- The `data_len`/`key_size` computation of one iteration of the `get_usage`
loop: a Long Item (top nibble 0xF) takes its data length from the following
byte (0 when that byte lies beyond the buffer) and has a 3-byte key; a Short
Item encodes the data length in its low two bits (3 meaning 4 bytes) and has
a 1-byte key. -/
def usage_item_step (rpt : Nat → Nat) (size i : Nat) : Nat × Nat :=
  let key := rpt i
  if key &&& 0xf0 = 0xf0 then
    (if i + 1 < size then rpt (i + 1) else 0, 3)
  else
    let size_code := key &&& 0x3
    (if size_code = 3 then 4 else size_code, 1)

/-- The two output cells `*usage_page` / `*usage` of `get_usage` together with
the `usage_page_found` / `usage_found` local flags. -/
structure UsageState where
  usage_page : Nat
  usage : Nat
  usage_page_found : Bool
  usage_found : Bool
deriving DecidableEq, Repr

/-- One-state update of the `get_usage` loop body for the item at offset `i`
(the two `key_cmd` tests of hid.c). -/
def usage_update (rpt : Nat → Nat) (size i data_len : Nat) (st : UsageState) :
    UsageState :=
  let key_cmd := rpt i &&& 0xfc
  let st1 :=
    if key_cmd = 0x4 then
      { st with usage_page := get_bytes rpt size data_len i,
                usage_page_found := true }
    else st
  if key_cmd = 0x8 then
    if data_len = 4 then
      { st1 with usage_page := get_bytes rpt size 2 (i + 2),
                 usage_page_found := true,
                 usage := get_bytes rpt size 2 i,
                 usage_found := true }
    else
      { st1 with usage := get_bytes rpt size data_len i, usage_found := true }
  else st1

/-- The `while (i < size)` loop of `get_usage`.  `fuel` bounds the number of
iterations; since every iteration advances `i` by `data_len + key_size ≥ 1`,
`fuel = size` always suffices (the loop runs at most `size` times), so the
wrapper below is an exact embedding of the C loop.  Result: (`true` = the C
return value 0 on success, `false` = -1 on failure, also used for exhausted
fuel which is unreachable from the wrapper) together with the final output
state. -/
def get_usage_loop (rpt : Nat → Nat) (size : Nat) :
    Nat → Nat → UsageState → Bool × UsageState
  | 0, _, st => (false, st)
  | fuel + 1, i, st =>
    if i < size then
      let dk := usage_item_step rpt size i
      let st2 := usage_update rpt size i dk.1 st
      if st2.usage_page_found ∧ st2.usage_found then (true, st2)
      else get_usage_loop rpt size fuel (i + dk.1 + dk.2) st2
    else (false, st)

/-- Embedding of `get_usage(report_descriptor, size, &usage_page, &usage)`;
the caller (`fill_device_info_usage`) initialises both output cells to 0. -/
def get_usage (rpt : Nat → Nat) (size : Nat) : Bool × UsageState :=
  get_usage_loop rpt size size 0 ⟨0, 0, false, false⟩

/-! ## Inbound report queue and read path -/

/-- An inbound report is its byte buffer; `rpt->len` is the buffer length. -/
abbrev Report := List Nat

/-- Embedding of `return_data(dev, data, length)`: copies
`min(length, rpt->len)` bytes of the head report into the caller buffer,
unlinks and frees the head, and returns the copied count.  Result:
(returned length, bytes copied out, remaining queue).  The `[]` case is
unreachable in the C code (every call site checks the queue first). -/
def return_data (q : List Report) (length : Nat) : Nat × List Nat × List Report :=
  match q with
  | [] => (0, [], [])
  | rpt :: rest =>
    let len := min length rpt.length
    (len, rpt.take len, rest)

/-- Embedding of the `LIBUSB_TRANSFER_COMPLETED` arm of `read_callback`:
append the new report at the tail; `num_queued` counts the links walked from
the head to the last node (i.e. `q.length - 1`), and when it exceeds 30 the
oldest report is popped via `return_data(dev, NULL, 0)` under the same
lock. -/
def read_callback_enqueue (q : List Report) (rpt : Report) : List Report :=
  match q with
  | [] => [rpt]
  | _ :: _ =>
    let num_queued := q.length - 1
    let q1 := q ++ [rpt]
    if num_queued > 30 then (return_data q1 0).2.2 else q1

/-- Result of one `hidapi_thread_cond_timedwait` (0, `ETIMEDOUT`, or another
error). -/
inductive WaitRes where
  | ok
  | timedOut
  | err
deriving DecidableEq, Repr

/-- The shared state a blocked reader observes upon one wake-up: the queue
and the shutdown flag as left by the background thread, plus the wait's
result code (ignored by the infinite-wait branch, which uses
`hidapi_thread_cond_wait`). -/
structure WakeEvent where
  queue : List Report
  shutdown : Bool
  res : WaitRes
deriving DecidableEq, Repr

/-- Reader-visible outcome: returned value, bytes copied into the caller's
buffer, and the remaining queue.  `none` models a call still blocked after
the supplied wake trace is exhausted. -/
abbrev ReadOutcome := Option (Int × List Nat × List Report)

/-- The `milliseconds == -1` branch of `hid_read_timeout`:
`while (!dev->input_reports && !dev->shutdown_thread) cond_wait;` followed by
`if (dev->input_reports) bytes_read = return_data(...)` (else `bytes_read`
keeps its initial value -1).  Entered with an empty queue and shutdown
clear, so the loop waits at least once. -/
def wait_loop_inf (length : Nat) : List WakeEvent → ReadOutcome
  | [] => none
  | e :: rest =>
    if e.queue ≠ [] ∨ e.shutdown then
      if e.queue ≠ [] then
        let r := return_data e.queue length
        some ((r.1 : Int), r.2.1, r.2.2)
      else some (-1, [], e.queue)
    else wait_loop_inf length rest

/-- The `milliseconds > 0` branch of `hid_read_timeout`: timed waits against
a deadline; a 0 result re-checks the queue (returning data if any arrived,
else re-entering the loop, which exits with the initial -1 when shutdown was
flagged with nothing queued); `ETIMEDOUT` returns 0; any other result
returns -1. -/
def wait_loop_timed (length : Nat) : List WakeEvent → ReadOutcome
  | [] => none
  | e :: rest =>
    match e.res with
    | .err => some (-1, [], e.queue)
    | .timedOut => some (0, [], e.queue)
    | .ok =>
      if e.queue ≠ [] then
        let r := return_data e.queue length
        some ((r.1 : Int), r.2.1, r.2.2)
      else if e.shutdown then some (-1, [], e.queue)
      else wait_loop_timed length rest

/-- Embedding of `hid_read_timeout(dev, data, length, milliseconds)`:
a queued report is returned at once (even if shutdown is already flagged);
an empty queue with shutdown flagged returns -1; otherwise the behaviour
depends on the timeout mode (-1 = blocking, >0 = timed, else purely
non-blocking returning 0). -/
def hid_read_timeout (q : List Report) (shutdown : Bool) (length : Nat)
    (milliseconds : Int) (trace : List WakeEvent) : ReadOutcome :=
  if q ≠ [] then
    let r := return_data q length
    some ((r.1 : Int), r.2.1, r.2.2)
  else if shutdown then some (-1, [], q)
  else if milliseconds = -1 then wait_loop_inf length trace
  else if milliseconds > 0 then wait_loop_timed length trace
  else some (0, [], q)

/-! ## Interface descriptors, Xbox 360/One detection and init -/

/-- The fields of `struct libusb_interface_descriptor` the HID backend
reads. -/
structure IfaceDesc where
  bInterfaceNumber : Nat
  bAlternateSetting : Nat
  bInterfaceClass : Nat
  bInterfaceSubClass : Nat
  bInterfaceProtocol : Nat
deriving DecidableEq, Repr

/-- The `supported_vendors` allow-list of `is_xbox360`. -/
def xb360_vendors : List Nat :=
  [0x0079, 0x044f, 0x045e, 0x046d, 0x056e, 0x06a3, 0x0738, 0x07ff, 0x0e6f,
   0x0f0d, 0x1038, 0x11c9, 0x12ab, 0x1430, 0x146b, 0x1532, 0x15e4, 0x162e,
   0x1689, 0x1949, 0x1bad, 0x20d6, 0x24c6, 0x2c22, 0x2dc8, 0x9886]

/-- Embedding of `is_xbox360(vendor_id, intf_desc)`:
`LIBUSB_CLASS_VENDOR_SPEC` is 0xff, subclass 93, protocol 1 (wired) or
129 (wireless), and the vendor must be on the allow-list. -/
def is_xbox360 (vendor_id : Nat) (d : IfaceDesc) : Bool :=
  if d.bInterfaceClass = 0xff ∧ d.bInterfaceSubClass = 93 ∧
     (d.bInterfaceProtocol = 1 ∨ d.bInterfaceProtocol = 129) then
    xb360_vendors.contains vendor_id
  else false

/-- A configuration descriptor as `init_xboxone` walks it: the list of
interfaces, each the list of its alternate-setting descriptors. -/
abbrev ConfigDesc := List (List IfaceDesc)

/-- The libusb calls `init_xboxone` issues, in order. -/
inductive UsbAction where
  | claimIntf (n : Nat)
  | setAlt (n a : Nat)
  | releaseIntf (n : Nat)
deriving DecidableEq, Repr

/-- The body of `init_xboxone` for one alternate-setting descriptor: on a
(vendor-specific, subclass 71, protocol 208) match, `bSetAlternateSetting`
is set for Microsoft's interface 0 at alternate setting 1, or for any
non-zero interface at alternate setting 0; the interface is then claimed,
`libusb_set_interface_alt_setting` is called with the descriptor's own
`bAlternateSetting`, and the interface released.  A failed claim is logged
and skipped (`continue`). -/
def init_xboxone_desc (idVendor : Nat) (claimOk : Nat → Bool) (d : IfaceDesc) :
    List UsbAction :=
  if d.bInterfaceClass = 0xff ∧ d.bInterfaceSubClass = 71 ∧
     d.bInterfaceProtocol = 208 then
    let bSetAlternateSetting :=
      if idVendor = 0x045e ∧ d.bInterfaceNumber = 0 ∧ d.bAlternateSetting = 1
      then true
      else if d.bInterfaceNumber ≠ 0 ∧ d.bAlternateSetting = 0 then true
      else false
    if bSetAlternateSetting then
      if claimOk d.bInterfaceNumber then
        [.claimIntf d.bInterfaceNumber,
         .setAlt d.bInterfaceNumber d.bAlternateSetting,
         .releaseIntf d.bInterfaceNumber]
      else [.claimIntf d.bInterfaceNumber]
    else []
  else []

/-- The inner (`num_altsetting`) loop of `init_xboxone`. -/
def init_xboxone_alts (idVendor : Nat) (claimOk : Nat → Bool) :
    List IfaceDesc → List UsbAction
  | [] => []
  | d :: rest =>
    init_xboxone_desc idVendor claimOk d ++ init_xboxone_alts idVendor claimOk rest

/-- Embedding of `init_xboxone(handle, idVendor, idProduct, conf_desc)` as
the trace of libusb calls it performs (`idProduct` is unused by the
code). -/
def init_xboxone (idVendor : Nat) (claimOk : Nat → Bool) :
    ConfigDesc → List UsbAction
  | [] => []
  | intf :: rest =>
    init_xboxone_alts idVendor claimOk intf ++ init_xboxone idVendor claimOk rest

/-! ## hid_write -/

/-- The session fields `hid_write` reads. -/
structure WriteDev where
  skip_output_report_id : Bool
  no_skip_output_report_id : Bool
  no_output_reports_on_intr_ep : Bool
  output_endpoint : Int
deriving DecidableEq, Repr

/-- Embedding of `hid_write(dev, data, length)`: null/empty input returns
-1; the leading report-ID byte is stripped when it is 0 and the
`no_skip_output_report_id` quirk is clear, or whenever the
`skip_output_report_id` quirk is set; the payload goes to the control
endpoint when there is no interrupt-OUT endpoint or the
`no_output_reports_on_intr_ep` quirk is set, else to the interrupt-OUT
endpoint.  `ctrl_res` is the `libusb_control_transfer` result; `intr_res`
is `none` on `libusb_interrupt_transfer` failure, else the transferred
`actual_length`.  Result: (return value, `some (usedControl, payload)`
recording the submitted transfer, `none` when no transfer was issued). -/
def hid_write (dev : WriteDev) (data : List Nat) (ctrl_res : Int)
    (intr_res : Option Nat) : Int × Option (Bool × List Nat) :=
  match data with
  | [] => (-1, none)
  | b0 :: rest =>
    let skipped := (!dev.no_skip_output_report_id && b0 == 0) ||
                   dev.skip_output_report_id
    let payload := if skipped then rest else b0 :: rest
    if dev.output_endpoint ≤ 0 ∨ dev.no_output_reports_on_intr_ep then
      if ctrl_res < 0 then (-1, some (true, payload))
      else ((payload.length : Int) + (if skipped then 1 else 0),
            some (true, payload))
    else
      match intr_res with
      | none => (-1, some (false, payload))
      | some actual =>
        ((actual : Int) + (if skipped then 1 else 0), some (false, payload))

/-! ## hid_close -/

/-- The teardown steps `hid_close` performs, in order. -/
inductive CloseAction where
  | setShutdownFlag
  | cancelTransfer
  | joinThread
  | freeTransferBuffer
  | freeTransfer
  | releaseInterface (n : Nat)
  | attachKernelDriver (n : Nat)
  | closeHandle
  | drainReport
  | freeDevice
deriving DecidableEq, Repr

/-- The session fields `hid_close` reads. -/
structure CloseDev where
  interface : Nat
  is_driver_detached : Bool
  input_reports : List Report
deriving DecidableEq, Repr

/-- Embedding of `hid_close(dev)` as its action trace: a null `dev` returns
immediately; otherwise shutdown is flagged, the pending transfer cancelled,
the read thread joined, the transfer freed, the interface released, a
previously detached kernel driver reattached, the handle closed, every
still-queued report drained via `return_data`, and the session freed. -/
def hid_close (dev : Option CloseDev) : List CloseAction :=
  match dev with
  | none => []
  | some d =>
    [.setShutdownFlag, .cancelTransfer, .joinThread, .freeTransferBuffer,
     .freeTransfer, .releaseInterface d.interface] ++
    (if d.is_driver_detached then [.attachKernelDriver d.interface] else []) ++
    [.closeHandle] ++ d.input_reports.map (fun _ => .drainReport) ++
    [.freeDevice]

/-! ## Theorems -/

/-- C1 counterexample: enqueuing 31 sequential reports `[1] ... [31]` onto an
initially empty, unread queue leaves 31 reports queued — not 30 — and the
first report `[1]` has not been evicted, refuting the claimed cap of 30. -/
theorem read_callback_cap30_counterexample :
    ((List.range 31).foldl (fun q n => read_callback_enqueue q [n + 1]) []).length
      = 31 ∧
    [1] ∈ (List.range 31).foldl (fun q n => read_callback_enqueue q [n + 1]) [] := by
  decide

/-- C1 (amended): the inbound queue produced by `read_callback` is capped at
32 reports, not 30: an insertion evicts exactly the oldest queued report
(under the same lock) precisely when at least 32 reports are already queued,
so a queue of at most 32 stays at most 32, and enqueuing 33 sequential
reports onto an initially empty, unread queue leaves exactly 32 reports,
with the first one evicted and reports #2..#33 present in arrival order. -/
theorem read_callback_cap32 :
    (∀ (q : List Report) (rpt : Report), q.length ≤ 32 →
       (read_callback_enqueue q rpt).length ≤ 32) ∧
    (∀ (q : List Report) (rpt : Report), 32 ≤ q.length →
       read_callback_enqueue q rpt = (q ++ [rpt]).tail) ∧
    (∀ (q : List Report) (rpt : Report), q.length ≤ 31 → q ≠ [] →
       read_callback_enqueue q rpt = q ++ [rpt]) ∧
    (List.range 33).foldl (fun q n => read_callback_enqueue q [n + 1]) [] =
      (List.range 32).map (fun n => [n + 2]) := by
  refine ⟨?_, ?_, ?_, by decide⟩
  · intro q rpt hq
    match q with
    | [] => simp [read_callback_enqueue]
    | a :: q' =>
      simp only [List.length_cons] at hq
      simp only [read_callback_enqueue, List.length_cons]
      split
      · simp [return_data]
        omega
      · simp
        omega
  · intro q rpt hq
    match q with
    | [] => simp at hq
    | a :: q' =>
      simp only [List.length_cons] at hq
      simp only [read_callback_enqueue, List.length_cons]
      rw [if_pos (by omega)]
      simp [return_data]
  · intro q rpt hq hne
    match q with
    | [] => exact absurd rfl hne
    | a :: q' =>
      simp only [List.length_cons] at hq
      simp only [read_callback_enqueue, List.length_cons]
      rw [if_neg (by omega)]

/-- C1 witness: the amended cap theorem applied at a concrete 32-report
queue. -/
theorem read_callback_cap32_witness :
    (read_callback_enqueue (List.replicate 32 [7]) [8]).length ≤ 32 ∧
    read_callback_enqueue (List.replicate 32 [7]) [8] =
      (List.replicate 32 [7] ++ [[8]]).tail :=
  ⟨read_callback_cap32.1 (List.replicate 32 [7]) [8] (by decide),
   read_callback_cap32.2.1 (List.replicate 32 [7]) [8] (by decide)⟩

/-- C3: a read on a non-empty queue consumes exactly the oldest queued
report, in every timeout mode and regardless of the shutdown flag: it
copies `min(report length, caller capacity)` bytes of that report, returns
that count (never -1; excess report bytes are discarded), removes exactly
that report from the head and leaves all later reports queued in arrival
order. -/
theorem hid_read_consumes_oldest (rpt : Report) (rest : List Report)
    (shutdown : Bool) (length : Nat) (ms : Int) (trace : List WakeEvent) :
    hid_read_timeout (rpt :: rest) shutdown length ms trace =
      some (((min length rpt.length : Nat) : Int),
            rpt.take (min length rpt.length), rest) ∧
    ((min length rpt.length : Nat) : Int) ≠ -1 := by
  constructor
  · simp [hid_read_timeout, return_data]
  · omega

/-- C9: on a session with no quirk flags set, a non-empty write whose first
byte is report ID 0 is transmitted with the leading ID byte stripped (the
submitted payload is the `length - 1` bytes starting at the second byte, on
both the control and the interrupt path), and a successful write returns a
byte count equal to the original input length. -/
theorem hid_write_strips_report_id_zero (ep ctrl_res : Int)
    (intr_res : Option Nat) (rest : List Nat) :
    (∃ viaControl,
       (hid_write ⟨false, false, false, ep⟩ (0 :: rest) ctrl_res intr_res).2 =
         some (viaControl, rest)) ∧
    (ep ≤ 0 → 0 ≤ ctrl_res →
       hid_write ⟨false, false, false, ep⟩ (0 :: rest) ctrl_res intr_res =
         (((0 :: rest).length : Int), some (true, rest))) ∧
    (0 < ep →
       hid_write ⟨false, false, false, ep⟩ (0 :: rest) ctrl_res
           (some rest.length) =
         (((0 :: rest).length : Int), some (false, rest))) := by
  refine ⟨?_, ?_, ?_⟩
  · simp only [hid_write]
    split
    · split
      · exact ⟨true, rfl⟩
      · exact ⟨true, rfl⟩
    · match intr_res with
      | none => exact ⟨false, rfl⟩
      | some actual => exact ⟨false, rfl⟩
  · intro hep hres
    have hnres : ¬ctrl_res < 0 := not_lt.mpr hres
    simp [hid_write, hep, hnres]
  · intro hep
    have hnep : ¬((ep : Int) ≤ 0) := not_le.mpr hep
    simp [hid_write, hnep]

/-- C9 witness: the write theorem applied at a concrete session and
buffer. -/
theorem hid_write_strips_report_id_zero_witness :
    hid_write ⟨false, false, false, 0⟩ [0, 9] 0 none = (2, some (true, [9])) ∧
    hid_write ⟨false, false, false, 3⟩ [0, 9] 0 (some 1) =
      (2, some (false, [9])) :=
  ⟨by
     have h := (hid_write_strips_report_id_zero 0 0 none [9]).2.1
       (by decide) (by decide)
     simpa using h,
   by
     have h := (hid_write_strips_report_id_zero 3 0 (some 1) [9]).2.2
       (by decide)
     simpa using h⟩

/-- In the infinite-wait branch, a -1 result only arises from a wake-up that
observed an empty queue with the shutdown flag set. -/
theorem wait_loop_inf_minus_one (length : Nat) :
    ∀ (trace : List WakeEvent) (r : Int) (c : List Nat) (q' : List Report),
      wait_loop_inf length trace = some (r, c, q') → r = -1 →
      ∃ e ∈ trace, e.queue = [] ∧ e.shutdown = true := by
  intro trace
  induction trace with
  | nil => intro r c q' h _; simp [wait_loop_inf] at h
  | cons e rest ih =>
    intro r c q' h hr
    simp only [wait_loop_inf] at h
    by_cases hcond : e.queue ≠ [] ∨ e.shutdown = true
    · rw [if_pos hcond] at h
      by_cases hq : e.queue ≠ []
      · rw [if_pos hq] at h
        simp only [Option.some.injEq, Prod.mk.injEq] at h
        obtain ⟨h1, -⟩ := h
        rw [hr] at h1
        omega
      · rw [if_neg hq] at h
        push_neg at hq
        have hsd : e.shutdown = true := by
          rcases hcond with h' | h'
          · exact absurd h' (by simp [hq])
          · exact h'
        exact ⟨e, List.mem_cons_self e rest, hq, hsd⟩
    · rw [if_neg hcond] at h
      obtain ⟨e', he', hp⟩ := ih r c q' h hr
      exact ⟨e', List.mem_cons_of_mem _ he', hp⟩

/-- In the timed-wait branch, a -1 result only arises from a wait error or
from a wake-up that observed an empty queue with the shutdown flag set. -/
theorem wait_loop_timed_minus_one (length : Nat) :
    ∀ (trace : List WakeEvent) (r : Int) (c : List Nat) (q' : List Report),
      wait_loop_timed length trace = some (r, c, q') → r = -1 →
      ∃ e ∈ trace, e.res = WaitRes.err ∨ (e.queue = [] ∧ e.shutdown = true) := by
  intro trace
  induction trace with
  | nil => intro r c q' h _; simp [wait_loop_timed] at h
  | cons e rest ih =>
    intro r c q' h hr
    simp only [wait_loop_timed] at h
    cases hres : e.res with
    | err => exact ⟨e, List.mem_cons_self e rest, Or.inl hres⟩
    | timedOut =>
      rw [hres] at h
      simp only [Option.some.injEq, Prod.mk.injEq] at h
      obtain ⟨h1, -⟩ := h
      rw [hr] at h1
      omega
    | ok =>
      rw [hres] at h
      by_cases hq : e.queue ≠ []
      · rw [if_pos hq] at h
        simp only [Option.some.injEq, Prod.mk.injEq] at h
        obtain ⟨h1, -⟩ := h
        rw [hr] at h1
        omega
      · rw [if_neg hq] at h
        push_neg at hq
        by_cases hsd : e.shutdown = true
        · exact ⟨e, List.mem_cons_self e rest, Or.inr ⟨hq, hsd⟩⟩
        · rw [if_neg hsd] at h
          obtain ⟨e', he', hp⟩ := ih r c q' h hr
          exact ⟨e', List.mem_cons_of_mem _ he', hp⟩

/-- C2: in every timeout mode, `hid_read_timeout` returns -1 exactly for
disconnection or a wait error: a -1 result implies the device was shut down
with nothing queued (at entry, or observed at a wake-up) or a
condition-wait error occurred; an empty queue with the shutdown flag set at
entry does return -1; and whenever at least one report is queued at call
entry the call returns that report's data with a non-negative count (never
-1), even if the shutdown flag is already set. -/
theorem hid_read_minus_one_iff_disconnected (q : List Report) (sd : Bool)
    (len : Nat) (ms : Int) (trace : List WakeEvent) :
    (∀ (r : Int) (copied : List Nat) (q' : List Report),
       hid_read_timeout q sd len ms trace = some (r, copied, q') → r = -1 →
       (q = [] ∧ sd = true) ∨
       ∃ e ∈ trace, e.res = WaitRes.err ∨
         (e.queue = [] ∧ e.shutdown = true)) ∧
    (q = [] → sd = true →
       hid_read_timeout q sd len ms trace = some (-1, [], [])) ∧
    (∀ (rpt : Report) (rest : List Report), q = rpt :: rest →
       ∃ (n : Nat) (copied : List Nat) (q' : List Report),
         hid_read_timeout q sd len ms trace = some ((n : Int), copied, q') ∧
         ((n : Int) ≠ -1)) := by
  refine ⟨?_, ?_, ?_⟩
  · intro r copied q' h hr
    simp only [hid_read_timeout] at h
    by_cases hq : q ≠ []
    · rw [if_pos hq] at h
      simp only [Option.some.injEq, Prod.mk.injEq] at h
      obtain ⟨h1, -⟩ := h
      rw [hr] at h1
      omega
    · rw [if_neg hq] at h
      push_neg at hq
      by_cases hsd : sd = true
      · exact Or.inl ⟨hq, hsd⟩
      · rw [if_neg hsd] at h
        by_cases hms : ms = -1
        · rw [if_pos hms] at h
          obtain ⟨e, he, hp⟩ := wait_loop_inf_minus_one len trace r copied q' h hr
          exact Or.inr ⟨e, he, Or.inr hp⟩
        · rw [if_neg hms] at h
          by_cases hms2 : ms > 0
          · rw [if_pos hms2] at h
            exact Or.inr (wait_loop_timed_minus_one len trace r copied q' h hr)
          · rw [if_neg hms2] at h
            simp only [Option.some.injEq, Prod.mk.injEq] at h
            obtain ⟨h1, -⟩ := h
            rw [hr] at h1
            omega
  · intro hq hsd
    subst hq
    simp [hid_read_timeout, hsd]
  · intro rpt rest hq
    subst hq
    refine ⟨min len rpt.length, rpt.take (min len rpt.length), rest, ?_, by omega⟩
    simp [hid_read_timeout, return_data]

/-- C2 witness: the disconnection theorem applied at an empty queue with the
shutdown flag set. -/
theorem hid_read_minus_one_iff_disconnected_witness :
    hid_read_timeout [] true 4 0 [] = some (-1, [], []) :=
  (hid_read_minus_one_iff_disconnected [] true 4 0 []).2.1 rfl rfl

/-- C4: when the parser reaches a Usage item (`key & 0xFC == 0x08`) at
offset `i` that is a 4-byte short item (`key & 0x3 == 0x3`) whose data lies
within the buffer, it sets `usage_page` to the little-endian 16-bit value of
bytes `i+3 .. i+4`, sets `usage` to the little-endian 16-bit value of bytes
`i+1 .. i+2`, marks both as found, and (both now being found) returns
success immediately with exactly those values — whatever the scan state on
arrival. -/
theorem get_usage_packed_usage_item (rpt : Nat → Nat) (size i fuel : Nat)
    (st : UsageState) (hkey : rpt i &&& 0xfc = 0x8)
    (hsz : rpt i &&& 0x3 = 0x3) (hin : i + 4 < size) :
    get_usage_loop rpt size (fuel + 1) i st =
      (true, ⟨rpt (i + 4) * 256 + rpt (i + 3),
              rpt (i + 2) * 256 + rpt (i + 1), true, true⟩) := by
  have hf0 : rpt i &&& 0xf0 = 0 := by
    have h1 : (0xfc : Nat) &&& 0xf0 = 0xf0 := by decide
    calc rpt i &&& 0xf0 = rpt i &&& (0xfc &&& 0xf0) := by rw [h1]
    _ = (rpt i &&& 0xfc) &&& 0xf0 := (Nat.land_assoc _ _ _).symm
    _ = 0x8 &&& 0xf0 := by rw [hkey]
    _ = 0 := by decide
  have hstep : usage_item_step rpt size i = (4, 1) := by
    simp [usage_item_step, hf0, hsz]
  have hg1 : get_bytes rpt size 2 (i + 2) = rpt (i + 4) * 256 + rpt (i + 3) := by
    simp only [get_bytes]
    rw [if_neg (show ¬size ≤ i + 2 + 2 by omega)]
    norm_num [Nat.add_assoc]
  have hg2 : get_bytes rpt size 2 i = rpt (i + 2) * 256 + rpt (i + 1) := by
    simp only [get_bytes]
    rw [if_neg (show ¬size ≤ i + 2 by omega)]
    norm_num
  have hupd : usage_update rpt size i 4 st =
      ⟨rpt (i + 4) * 256 + rpt (i + 3),
       rpt (i + 2) * 256 + rpt (i + 1), true, true⟩ := by
    simp [usage_update, hkey, hg1, hg2]
  have hin' : i < size := by omega
  simp [get_usage_loop, hin', hstep, hupd]

/-- C4 witness: the packed-usage theorem applied to the concrete descriptor
`[0x0B, 0x01, 0x00, 0x02, 0x00]` (usage 1, usage page 2). -/
theorem get_usage_packed_usage_item_witness :
    get_usage_loop (fun j => [0x0B, 1, 0, 2, 0].getD j 0) 5 5 0
        ⟨0, 0, false, false⟩ = (true, ⟨2, 1, true, true⟩) := by
  have h := get_usage_packed_usage_item (fun j => [0x0B, 1, 0, 2, 0].getD j 0)
    5 0 4 ⟨0, 0, false, false⟩ (by decide) (by decide) (by decide)
  simpa using h

/-- C5 counterexample: on the descriptor `[0x05, 0x01]` (a lone Usage Page
item) the scan reaches the end of the buffer without finding a Usage, so it
reports failure — yet the caller-visible `usage_page` output has been
modified to 1 (not left unset/zero), refuting the claim that neither output
is modified on a failing scan. -/
theorem get_usage_failure_modifies_output :
    get_usage (fun j => [5, 1].getD j 0) 2 = (false, ⟨1, 0, true, false⟩) ∧
    (1 : Nat) ≠ 0 := by
  decide

/-- Frame property of one `get_usage` item update: an output cell whose
found-flag is still clear after the update is unchanged (and its flag was
already clear before). -/
theorem usage_update_found_frame (rpt : Nat → Nat) (size i dl : Nat)
    (st : UsageState) :
    ((usage_update rpt size i dl st).usage_page_found = false →
       (usage_update rpt size i dl st).usage_page = st.usage_page ∧
       st.usage_page_found = false) ∧
    ((usage_update rpt size i dl st).usage_found = false →
       (usage_update rpt size i dl st).usage = st.usage ∧
       st.usage_found = false) := by
  simp only [usage_update]
  split_ifs <;> simp

/-- On a failing run of the `get_usage` loop, an output whose found-flag is
clear at the end still holds its initial value, and (when the scan did not
start with both already found) not both values were found. -/
theorem get_usage_loop_false (rpt : Nat → Nat) (size fuel : Nat) :
    ∀ (i : Nat) (st st' : UsageState),
      get_usage_loop rpt size fuel i st = (false, st') →
      (st'.usage_page_found = false →
         st'.usage_page = st.usage_page ∧ st.usage_page_found = false) ∧
      (st'.usage_found = false →
         st'.usage = st.usage ∧ st.usage_found = false) ∧
      (¬(st.usage_page_found = true ∧ st.usage_found = true) →
         ¬(st'.usage_page_found = true ∧ st'.usage_found = true)) := by
  induction fuel with
  | zero =>
    intro i st st' h
    simp only [get_usage_loop, Prod.mk.injEq] at h
    obtain ⟨-, rfl⟩ := h
    exact ⟨fun h => ⟨rfl, h⟩, fun h => ⟨rfl, h⟩, id⟩
  | succ fuel ih =>
    intro i st st' h
    simp only [get_usage_loop] at h
    by_cases hi : i < size
    · rw [if_pos hi] at h
      by_cases hb : (usage_update rpt size i (usage_item_step rpt size i).1
          st).usage_page_found = true ∧
          (usage_update rpt size i (usage_item_step rpt size i).1
          st).usage_found = true
      · rw [if_pos hb] at h
        exact absurd h (by simp)
      · rw [if_neg hb] at h
        obtain ⟨h1, h2, h3⟩ := ih _ _ _ h
        have hu := usage_update_found_frame rpt size i
          (usage_item_step rpt size i).1 st
        refine ⟨?_, ?_, fun _ => h3 hb⟩
        · intro hpf
          obtain ⟨e1, e2⟩ := h1 hpf
          obtain ⟨e3, e4⟩ := hu.1 e2
          exact ⟨e1.trans e3, e4⟩
        · intro huf
          obtain ⟨e1, e2⟩ := h2 huf
          obtain ⟨e3, e4⟩ := hu.2 e2
          exact ⟨e1.trans e3, e4⟩
    · rw [if_neg hi] at h
      simp only [Prod.mk.injEq] at h
      obtain ⟨-, rfl⟩ := h
      exact ⟨fun h => ⟨rfl, h⟩, fun h => ⟨rfl, h⟩, id⟩

/-- C5 (amended): if the parser reaches the end of the buffer without having
found both a Usage Page and a Usage, it reports failure and not both values
were found; an output whose item was never found remains zero — but an
output whose item *was* found before the end of the buffer has been written
and may be nonzero (the code updates the caller's cells as it scans, not
only on success). -/
theorem get_usage_failure_outputs (rpt : Nat → Nat) (size : Nat)
    (st' : UsageState) (h : get_usage rpt size = (false, st')) :
    (st'.usage_page_found = false → st'.usage_page = 0) ∧
    (st'.usage_found = false → st'.usage = 0) ∧
    ¬(st'.usage_page_found = true ∧ st'.usage_found = true) := by
  obtain ⟨h1, h2, h3⟩ := get_usage_loop_false rpt size size 0
    ⟨0, 0, false, false⟩ st' h
  exact ⟨fun hp => (h1 hp).1, fun hu => (h2 hu).1, h3 (by simp)⟩

/-- C5 witness: the failing-scan theorem applied to the concrete descriptor
`[0x05, 0x01]`. -/
theorem get_usage_failure_outputs_witness :
    ((⟨1, 0, true, false⟩ : UsageState).usage_found = false →
       (⟨1, 0, true, false⟩ : UsageState).usage = 0) ∧
    ¬((⟨1, 0, true, false⟩ : UsageState).usage_page_found = true ∧
      (⟨1, 0, true, false⟩ : UsageState).usage_found = true) :=
  ⟨(get_usage_failure_outputs (fun j => [5, 1].getD j 0) 2
      ⟨1, 0, true, false⟩ (by decide)).2.1,
   (get_usage_failure_outputs (fun j => [5, 1].getD j 0) 2
      ⟨1, 0, true, false⟩ (by decide)).2.2⟩

/-- `get_bytes` reads the same value from any two buffers agreeing below
`len`: all its reads are guarded to lie below `len`. -/
theorem get_bytes_congr (f g : Nat → Nat) (len num cur : Nat)
    (h : ∀ j, j < len → f j = g j) :
    get_bytes f len num cur = get_bytes g len num cur := by
  simp only [get_bytes]
  by_cases hb : len ≤ cur + num
  · rw [if_pos hb, if_pos hb]
  · rw [if_neg hb, if_neg hb]
    push_neg at hb
    by_cases h0 : num = 0
    · rw [if_pos h0, if_pos h0]
    · rw [if_neg h0, if_neg h0]
      by_cases h1 : num = 1
      · rw [if_pos h1, if_pos h1, h (cur + 1) (by omega)]
      · rw [if_neg h1, if_neg h1]
        by_cases h2 : num = 2
        · rw [if_pos h2, if_pos h2, h (cur + 1) (by omega),
             h (cur + 2) (by omega)]
        · rw [if_neg h2, if_neg h2]
          by_cases h4 : num = 4
          · rw [if_pos h4, if_pos h4, h (cur + 1) (by omega),
               h (cur + 2) (by omega), h (cur + 3) (by omega),
               h (cur + 4) (by omega)]
          · rw [if_neg h4, if_neg h4]

/-- The item-header decode reads the same values from any two buffers
agreeing below `size` (its long-item length read is guarded). -/
theorem usage_item_step_congr (f g : Nat → Nat) (size i : Nat)
    (h : ∀ j, j < size → f j = g j) (hi : i < size) :
    usage_item_step f size i = usage_item_step g size i := by
  simp only [usage_item_step]
  rw [h i hi]
  by_cases h1 : g i &&& 0xf0 = 0xf0
  · rw [if_pos h1, if_pos h1]
    by_cases h2 : i + 1 < size
    · rw [if_pos h2, if_pos h2, h (i + 1) h2]
    · rw [if_neg h2, if_neg h2]
  · rw [if_neg h1, if_neg h1]

/-- The item update reads the same values from any two buffers agreeing
below `size`. -/
theorem usage_update_congr (f g : Nat → Nat) (size i dl : Nat)
    (st : UsageState) (h : ∀ j, j < size → f j = g j) (hi : i < size) :
    usage_update f size i dl st = usage_update g size i dl st := by
  simp only [usage_update]
  rw [h i hi, get_bytes_congr f g size dl i h,
     get_bytes_congr f g size 2 (i + 2) h, get_bytes_congr f g size 2 i h]

/-- The scan loop reads the same values from any two buffers agreeing below
`size`: it never indexes the buffer at or beyond its length. -/
theorem get_usage_loop_congr (f g : Nat → Nat) (size fuel : Nat)
    (h : ∀ j, j < size → f j = g j) :
    ∀ (i : Nat) (st : UsageState),
      get_usage_loop f size fuel i st = get_usage_loop g size fuel i st := by
  induction fuel with
  | zero => intro i st; simp [get_usage_loop]
  | succ fuel ih =>
    intro i st
    simp only [get_usage_loop]
    by_cases hi : i < size
    · rw [if_pos hi, if_pos hi,
         usage_item_step_congr f g size i h hi,
         usage_update_congr f g size i (usage_item_step g size i).1 st h hi,
         ih]
    · rw [if_neg hi, if_neg hi]

/-- C6: the parser never reads past the end of the buffer: `get_bytes`
returns 0 whenever `cur + num_bytes >= len` instead of reading out of
bounds; a Long Item whose length byte lies beyond the buffer is given data
length 0 (and the 3-byte key size); and the whole scan depends only on the
bytes below the buffer length — two buffers agreeing below `size` scan
identically, so no index at or beyond `size` is ever consulted. -/
theorem parser_no_out_of_bounds :
    (∀ (rpt : Nat → Nat) (len num cur : Nat), len ≤ cur + num →
       get_bytes rpt len num cur = 0) ∧
    (∀ (rpt : Nat → Nat) (size i : Nat), rpt i &&& 0xf0 = 0xf0 →
       size ≤ i + 1 → usage_item_step rpt size i = (0, 3)) ∧
    (∀ (f g : Nat → Nat) (size : Nat), (∀ j, j < size → f j = g j) →
       get_usage f size = get_usage g size) := by
  refine ⟨?_, ?_, ?_⟩
  · intro rpt len num cur hb
    simp [get_bytes, hb]
  · intro rpt size i hkey hsz
    have hn : ¬(i + 1 < size) := by omega
    simp [usage_item_step, hkey, hn]
  · intro f g size h
    simp only [get_usage]
    exact get_usage_loop_congr f g size size h 0 ⟨0, 0, false, false⟩

/-- C6 witness: the bounded-access theorem applied at concrete buffers. -/
theorem parser_no_out_of_bounds_witness :
    get_bytes (fun j => [1, 2].getD j 0) 2 2 1 = 0 ∧
    usage_item_step (fun _ => 0xf7) 1 0 = (0, 3) ∧
    get_usage (fun j => [9, 1].getD j 0) 2 =
      get_usage (fun j => if j < 2 then [9, 1].getD j 0 else 77) 2 :=
  ⟨parser_no_out_of_bounds.1 (fun j => [1, 2].getD j 0) 2 2 1 (by decide),
   parser_no_out_of_bounds.2.1 (fun _ => 0xf7) 1 0 (by decide) (by decide),
   parser_no_out_of_bounds.2.2 (fun j => [9, 1].getD j 0)
     (fun j => if j < 2 then [9, 1].getD j 0 else 77) 2 (by decide)⟩

/-- C7 counterexample: for a configuration whose only vendor-specific
(subclass 71, protocol 208) descriptor is interface 1 at alternate
setting 0, `init_xboxone` selects alternate setting 0 — the descriptor's
own `bAlternateSetting` — and never selects alternate setting 1, refuting
the claim that non-zero matching interfaces get alternate setting 1. -/
theorem init_xboxone_counterexample :
    UsbAction.setAlt 1 1 ∉
      init_xboxone 0x045e (fun _ => true) [[⟨1, 0, 0xff, 71, 208⟩]] ∧
    UsbAction.setAlt 1 0 ∈
      init_xboxone 0x045e (fun _ => true) [[⟨1, 0, 0xff, 71, 208⟩]] := by
  decide

/-- Which `setAlt` calls one descriptor contributes (all claims
succeeding). -/
theorem init_xboxone_desc_setAlt (idVendor : Nat) (d : IfaceDesc) (n a : Nat) :
    UsbAction.setAlt n a ∈ init_xboxone_desc idVendor (fun _ => true) d ↔
      d.bInterfaceNumber = n ∧ d.bAlternateSetting = a ∧
      d.bInterfaceClass = 0xff ∧ d.bInterfaceSubClass = 71 ∧
      d.bInterfaceProtocol = 208 ∧
      ((idVendor = 0x045e ∧ n = 0 ∧ a = 1) ∨ (n ≠ 0 ∧ a = 0)) := by
  simp only [init_xboxone_desc]
  by_cases hm : d.bInterfaceClass = 0xff ∧ d.bInterfaceSubClass = 71 ∧
      d.bInterfaceProtocol = 208
  · rw [if_pos hm]
    by_cases hc1 : idVendor = 0x045e ∧ d.bInterfaceNumber = 0 ∧
        d.bAlternateSetting = 1
    · rw [if_pos hc1]
      simp only [if_pos rfl]
      constructor
      · intro hmem
        simp at hmem
        obtain ⟨rfl, rfl⟩ := hmem
        exact ⟨rfl, rfl, hm.1, hm.2.1, hm.2.2,
               Or.inl ⟨hc1.1, hc1.2.1, hc1.2.2⟩⟩
      · rintro ⟨rfl, rfl, -⟩
        simp
    · rw [if_neg hc1]
      by_cases hc2 : d.bInterfaceNumber ≠ 0 ∧ d.bAlternateSetting = 0
      · rw [if_pos hc2]
        simp only [if_pos rfl]
        constructor
        · intro hmem
          simp at hmem
          obtain ⟨rfl, rfl⟩ := hmem
          exact ⟨rfl, rfl, hm.1, hm.2.1, hm.2.2, Or.inr ⟨hc2.1, hc2.2⟩⟩
        · rintro ⟨rfl, rfl, -⟩
          simp
      · rw [if_neg hc2]
        simp only [if_neg (by simp : ¬(false = true))]
        constructor
        · intro hmem
          exact absurd hmem (List.not_mem_nil _)
        · rintro ⟨rfl, rfl, -, -, -, hor⟩
          rcases hor with ⟨hv, hn0, ha1⟩ | ⟨hn0, ha0⟩
          · exact absurd ⟨hv, hn0, ha1⟩ hc1
          · exact absurd ⟨hn0, ha0⟩ hc2
  · rw [if_neg hm]
    constructor
    · intro hmem
      exact absurd hmem (List.not_mem_nil _)
    · rintro ⟨-, -, hc, hs, hp, -⟩
      exact absurd ⟨hc, hs, hp⟩ hm

/-- Membership in the inner alternate-setting loop of `init_xboxone`. -/
theorem mem_init_xboxone_alts (idVendor : Nat) (ok : Nat → Bool)
    (x : UsbAction) :
    ∀ alts : List IfaceDesc,
      x ∈ init_xboxone_alts idVendor ok alts ↔
        ∃ d ∈ alts, x ∈ init_xboxone_desc idVendor ok d := by
  intro alts
  induction alts with
  | nil => simp [init_xboxone_alts]
  | cons d rest ih => simp [init_xboxone_alts, ih]

/-- Membership in the full `init_xboxone` action trace. -/
theorem mem_init_xboxone (idVendor : Nat) (ok : Nat → Bool) (x : UsbAction) :
    ∀ conf : ConfigDesc,
      x ∈ init_xboxone idVendor ok conf ↔
        ∃ intf ∈ conf, ∃ d ∈ intf, x ∈ init_xboxone_desc idVendor ok d := by
  intro conf
  induction conf with
  | nil => simp [init_xboxone]
  | cons intf rest ih => simp [init_xboxone, mem_init_xboxone_alts, ih]

/-- C7 (amended): during Xbox One initialization with all interface claims
succeeding, every alternate-setting selection targets a matching
(vendor-specific, subclass 71, protocol 208) descriptor and selects that
descriptor's *own* alternate setting: interface 0 has alternate setting 1
selected only when the vendor is Microsoft (0x045e), and every other
matching interface with a descriptor at alternate setting 0 has alternate
setting 0 selected (not 1); the selection is performed by claiming the
interface, setting the alternate setting, then releasing it. -/
theorem init_xboxone_alt_selection (idVendor : Nat) (conf : ConfigDesc) :
    (∀ (n a : Nat),
       UsbAction.setAlt n a ∈ init_xboxone idVendor (fun _ => true) conf →
       ∃ intf ∈ conf, ∃ d ∈ intf,
         d.bInterfaceNumber = n ∧ d.bAlternateSetting = a ∧
         d.bInterfaceClass = 0xff ∧ d.bInterfaceSubClass = 71 ∧
         d.bInterfaceProtocol = 208 ∧
         ((idVendor = 0x045e ∧ n = 0 ∧ a = 1) ∨ (n ≠ 0 ∧ a = 0))) ∧
    (∀ intf ∈ conf, ∀ d ∈ intf,
       d.bInterfaceClass = 0xff → d.bInterfaceSubClass = 71 →
       d.bInterfaceProtocol = 208 → d.bInterfaceNumber ≠ 0 →
       d.bAlternateSetting = 0 →
       UsbAction.setAlt d.bInterfaceNumber 0 ∈
         init_xboxone idVendor (fun _ => true) conf) ∧
    (∀ intf ∈ conf, ∀ d ∈ intf,
       idVendor = 0x045e → d.bInterfaceNumber = 0 →
       d.bAlternateSetting = 1 → d.bInterfaceClass = 0xff →
       d.bInterfaceSubClass = 71 → d.bInterfaceProtocol = 208 →
       UsbAction.setAlt 0 1 ∈
         init_xboxone idVendor (fun _ => true) conf) := by
  refine ⟨?_, ?_, ?_⟩
  · intro n a hmem
    rw [mem_init_xboxone] at hmem
    obtain ⟨intf, hintf, d, hd, hx⟩ := hmem
    rw [init_xboxone_desc_setAlt] at hx
    exact ⟨intf, hintf, d, hd, hx⟩
  · intro intf hintf d hd hc hs hp hn0 ha0
    rw [mem_init_xboxone]
    refine ⟨intf, hintf, d, hd, ?_⟩
    rw [init_xboxone_desc_setAlt]
    exact ⟨rfl, ha0, hc, hs, hp, Or.inr ⟨hn0, rfl⟩⟩
  · intro intf hintf d hd hv hn0 ha1 hc hs hp
    rw [mem_init_xboxone]
    refine ⟨intf, hintf, d, hd, ?_⟩
    rw [init_xboxone_desc_setAlt]
    exact ⟨hn0, ha1, hc, hs, hp, Or.inl ⟨hv, rfl, rfl⟩⟩

/-- C7 witness: the amended selection theorem applied at a concrete
configuration. -/
theorem init_xboxone_alt_selection_witness :
    UsbAction.setAlt 1 0 ∈
      init_xboxone 7 (fun _ => true) [[⟨1, 0, 0xff, 71, 208⟩]] :=
  (init_xboxone_alt_selection 7 [[⟨1, 0, 0xff, 71, 208⟩]]).2.1
    [⟨1, 0, 0xff, 71, 208⟩] (by simp) ⟨1, 0, 0xff, 71, 208⟩ (by simp)
    rfl rfl rfl (by decide) rfl

/-- C8: `is_xbox360` returns true exactly for an interface descriptor with
class vendor-specific (0xff), subclass 93, protocol 1 or 129, and a vendor
ID on the fixed allow-list; in particular vendor 0x045e with protocol 1 is
detected and vendor 0x1111 with the same interface fields is not. -/
theorem is_xbox360_spec :
    (∀ (vendor_id : Nat) (d : IfaceDesc),
       is_xbox360 vendor_id d = true ↔
         d.bInterfaceClass = 0xff ∧ d.bInterfaceSubClass = 93 ∧
         (d.bInterfaceProtocol = 1 ∨ d.bInterfaceProtocol = 129) ∧
         vendor_id ∈ xb360_vendors) ∧
    is_xbox360 0x045e ⟨0, 0, 0xff, 93, 1⟩ = true ∧
    is_xbox360 0x1111 ⟨0, 0, 0xff, 93, 1⟩ = false := by
  refine ⟨?_, by decide, by decide⟩
  intro vendor_id d
  simp only [is_xbox360]
  by_cases h : d.bInterfaceClass = 0xff ∧ d.bInterfaceSubClass = 93 ∧
      (d.bInterfaceProtocol = 1 ∨ d.bInterfaceProtocol = 129)
  · rw [if_pos h]
    rw [List.elem_iff]
    constructor
    · intro hv
      exact ⟨h.1, h.2.1, h.2.2, hv⟩
    · intro hv
      exact hv.2.2.2
  · rw [if_neg h]
    constructor
    · intro hf
      exact absurd hf (by simp)
    · intro hv
      exact absurd ⟨hv.1, hv.2.1, hv.2.2.1⟩ h

/-- C10: `hid_close` on a null session pointer returns immediately without
performing any teardown action (no flag set, no transfer cancelled, no
thread joined, no interface released, nothing freed). -/
theorem hid_close_null_noop : hid_close none = [] := rfl

end HidLibusb
